import Mathlib

/-!
Verification of the `result-script` library: a TypeScript implementation of a
Rust-style `Result<T, E>` container (src/components/result.ts) and its
asynchronous counterpart `ResultAsync` (src/resultAsync.ts).

The embedding models JavaScript runtime values (`JSVal`), promise outcomes
(`JSProm`), the duck-typed `Result` class whose variant is determined by
presence of the `ok` / `err` instance properties, and the three `ResultAsync`
combinators `map`, `mapErr`, `andThen` as functions from the underlying
promise outcome to the outcome of the combinator's returned promise, paired
with the number of times the user callback was invoked.
-/

/-- The eventual outcome of a JavaScript `Promise`: it either fulfills with a
value of type `α`, rejects with a reason of type `ε` (an arbitrary runtime
value), or stays pending forever. -/
inductive JSProm (ε α : Type) : Type where
  | fulfilled (v : α)
  | rejected (reason : ε)
  | pending

/-- A JavaScript runtime value: `undefined`, a boolean, a number (modelled as
an integer, which covers every value appearing in the claims), a string, an
`Error` object carrying its message, a plain object as an ordered list of
string-keyed fields, or a `Promise` identified by its eventual outcome. -/
inductive JSVal : Type where
  | undef
  | jsBool (b : Bool)
  | num (n : Int)
  | str (s : String)
  | errObj (msg : String)
  | obj (fields : List (String × JSVal))
  | promVal (p : JSProm JSVal JSVal)

/-- `v instanceof Promise` on a runtime value. -/
def JSVal.isPromise : JSVal → Bool
  | .promVal _ => true
  | _ => false

mutual
/-- `JSON.stringify(v)` as it appears after string concatenation in the
library's error messages (so `undefined` renders as the text `undefined`).
String escaping is not modelled; every string in the claims is escape-free.
An `Error` object has no own enumerable properties, so it serialises to an
empty object; the same holds for a `Promise`. -/
def jsonStringify : JSVal → String
  | .undef => "undefined"
  | .jsBool b => if b then "true" else "false"
  | .num n => toString n
  | .str s => "\"" ++ s ++ "\""
  | .errObj _ => "\x7b\x7d"
  | .obj fields => "\x7b" ++ jsonStringifyFields fields ++ "\x7d"
  | .promVal _ => "\x7b\x7d"

/-- Comma-separated `"key":value` serialisation of an object's fields. -/
def jsonStringifyFields : List (String × JSVal) → String
  | [] => ""
  | [(k, v)] => "\"" ++ k ++ "\":" ++ jsonStringify v
  | (k, v) :: rest => "\"" ++ k ++ "\":" ++ jsonStringify v ++ "," ++ jsonStringifyFields rest
end

mutual
/-- `isDeepStrictEqual` from `node:util`: recursive structural value equality.
Objects are modelled as ordered field lists (a canonical representative of the
key set); two `Error` values compare by message, and two `Promise` values have
no own enumerable properties, hence compare equal regardless of state. -/
def isDeepStrictEqual : JSVal → JSVal → Bool
  | .undef, .undef => true
  | .jsBool a, .jsBool b => a == b
  | .num a, .num b => a == b
  | .str a, .str b => a == b
  | .errObj a, .errObj b => a == b
  | .obj a, .obj b => deepEqualFields a b
  | .promVal _, .promVal _ => true
  | _, _ => false

/-- Field-by-field deep equality of two objects' field lists. -/
def deepEqualFields : List (String × JSVal) → List (String × JSVal) → Bool
  | [], [] => true
  | (k1, v1) :: r1, (k2, v2) :: r2 =>
      k1 == k2 && isDeepStrictEqual v1 v2 && deepEqualFields r1 r2
  | _, _ => false
end

/-- An instance of the `Result` class: the `ok` and `err` instance
properties. `none` models absence of the property ( `"ok" in this` is false);
`some v` models presence with value `v`, where `v` may itself be
`JSVal.undef`, since assigning `undefined` to a property still creates it. -/
structure Result : Type where
  ok : Option JSVal
  err : Option JSVal

/-- The constructor argument `data : IOk<T> | IErr<E>`, an object that may
carry an `ok` and/or an `err` property. -/
structure CtorData : Type where
  ok : Option JSVal
  err : Option JSVal

/-- `constructor(data)`: if `"ok" in data`, assign `this.ok = data.ok`;
else if `"err" in data`, assign `this.err = data.err`; else throw
`Error("Bad constructor format!")`. Only the chosen property is assigned, so
the other stays absent on the instance. -/
def Result.construct (data : CtorData) : Except JSVal Result :=
  match data.ok with
  | some v => .ok { ok := some v, err := none }
  | none =>
    match data.err with
    | some e => .ok { ok := none, err := some e }
    | none => .error (.errObj "Bad constructor format!")

/-- The free constructor `Ok(data)`, i.e. `new Result({ ok: data })`; the
constructor always takes its first branch on this input (see
`Result.construct_okData`). -/
def Ok (data : JSVal) : Result := { ok := some data, err := none }

/-- The free constructor `Err(err)`, i.e. `new Result({ err: err })`. -/
def Err (e : JSVal) : Result := { ok := none, err := some e }

/-- Fidelity of `Ok`/`Err` to the class constructor: routing the two
constructor-call shapes through `Result.construct` yields exactly `Ok v`
and `Err e`. -/
theorem Result.construct_okData (v e : JSVal) :
    Result.construct { ok := some v, err := none } = .ok (Ok v) ∧
    Result.construct { ok := none, err := some e } = .ok (Err e) := by
  exact ⟨rfl, rfl⟩

/-- `isOk()`: `if ("ok" in this) return true; else if ("err" in this) return
false; else throw Error("Something is deeply wrong with the Result object")`. -/
def Result.isOk (r : Result) : Except JSVal Bool :=
  match r.ok with
  | some _ => .ok true
  | none =>
    match r.err with
    | some _ => .ok false
    | none => .error (.errObj "Something is deeply wrong with the Result object")

/-- `isErr()`: `if ("err" in this) return true; else if ("ok" in this) return
false; else throw Error("Something is deeply wrong with the Result object")`. -/
def Result.isErr (r : Result) : Except JSVal Bool :=
  match r.err with
  | some _ => .ok true
  | none =>
    match r.ok with
    | some _ => .ok false
    | none => .error (.errObj "Something is deeply wrong with the Result object")

mutual
/-- `unwrap()` with explicit call-stack fuel for the mutual call into
`unwrapErr` inside the thrown message (`throw Error("Called Result.unwrap()
on an Err value: " + JSON.stringify(this.unwrapErr()))`). The mutual call
chain has depth at most two on any instance, so the fuel never runs out when
entered at `Result.unwrap` (fuel 2); the fuel-0 case models JS call-stack
exhaustion and is unreachable from the public entry points. Reading `this.ok`
on an instance lacking the property yields `undefined`, hence the `getD`. -/
def Result.unwrapF : Nat → Result → Except JSVal JSVal
  | 0, _ => .error (.errObj "Maximum call stack size exceeded")
  | fuel + 1, r =>
    match r.isOk with
    | .error ex => .error ex
    | .ok true => .ok (r.ok.getD .undef)
    | .ok false =>
      match Result.unwrapErrF fuel r with
      | .error ex => .error ex
      | .ok e => .error (.errObj ("Called Result.unwrap() on an Err value: " ++ jsonStringify e))

/-- `unwrapErr()` with the same fuel discipline as `Result.unwrapF`. -/
def Result.unwrapErrF : Nat → Result → Except JSVal JSVal
  | 0, _ => .error (.errObj "Maximum call stack size exceeded")
  | fuel + 1, r =>
    match r.isErr with
    | .error ex => .error ex
    | .ok true => .ok (r.err.getD .undef)
    | .ok false =>
      match Result.unwrapF fuel r with
      | .error ex => .error ex
      | .ok v => .error (.errObj ("Called Result.unwrapErr() on an Ok value: " ++ jsonStringify v))
end

/-- `unwrap()`: returns the `ok` payload, or throws
`Error("Called Result.unwrap() on an Err value: " + JSON.stringify(this.unwrapErr()))`. -/
def Result.unwrap (r : Result) : Except JSVal JSVal := Result.unwrapF 2 r

/-- `unwrapErr()`: returns the `err` payload, or throws
`Error("Called Result.unwrapErr() on an Ok value: " + JSON.stringify(this.unwrap()))`. -/
def Result.unwrapErr (r : Result) : Except JSVal JSVal := Result.unwrapErrF 2 r

/-- `contains(x)`: `if (this.isOk()) return isDeepStrictEqual(this.unwrap(), x);
else if (this.isErr()) return false; else throw`. -/
def Result.contains (r : Result) (x : JSVal) : Except JSVal Bool :=
  match r.isOk with
  | .error ex => .error ex
  | .ok true =>
    match r.unwrap with
    | .error ex => .error ex
    | .ok v => .ok (isDeepStrictEqual v x)
  | .ok false =>
    match r.isErr with
    | .error ex => .error ex
    | .ok true => .ok false
    | .ok false => .error (.errObj "Something is deeply wrong with the Result object")

/-- Effect channel for user callbacks passed to the synchronous combinators:
a call counter (observing how many times the callback is invoked) together
with the JavaScript throw channel. A computation takes the current count and
returns its outcome (value or thrown error) and the updated count. Library
code itself never touches the counter; only instrumented callbacks do. -/
def JSM (α : Type) : Type := Nat → Except JSVal α × Nat

/-- `map(op)`: `if (this.isOk()) return Ok(op(this.unwrap()));
else if (this.isErr()) return Err(this.unwrapErr()); else throw`. An error
thrown by `op` is not caught and propagates to the caller. -/
def Result.map (r : Result) (op : JSVal → JSM JSVal) : JSM Result := fun n =>
  match r.isOk with
  | .error ex => (.error ex, n)
  | .ok true =>
    match r.unwrap with
    | .error ex => (.error ex, n)
    | .ok v =>
      match op v n with
      | (.error ex, n2) => (.error ex, n2)
      | (.ok u, n2) => (.ok (Ok u), n2)
  | .ok false =>
    match r.isErr with
    | .error ex => (.error ex, n)
    | .ok true =>
      match r.unwrapErr with
      | .error ex => (.error ex, n)
      | .ok e => (.ok (Err e), n)
    | .ok false => (.error (.errObj "Something is deeply wrong with the Result object"), n)

/-- `mapErr(op)`: `if (this.isOk()) return Ok(this.unwrap());
else if (this.isErr()) return Err(op(this.unwrapErr())); else throw`. -/
def Result.mapErr (r : Result) (op : JSVal → JSM JSVal) : JSM Result := fun n =>
  match r.isOk with
  | .error ex => (.error ex, n)
  | .ok true =>
    match r.unwrap with
    | .error ex => (.error ex, n)
    | .ok v => (.ok (Ok v), n)
  | .ok false =>
    match r.isErr with
    | .error ex => (.error ex, n)
    | .ok true =>
      match r.unwrapErr with
      | .error ex => (.error ex, n)
      | .ok e =>
        match op e n with
        | (.error ex, n2) => (.error ex, n2)
        | (.ok f, n2) => (.ok (Err f), n2)
    | .ok false => (.error (.errObj "Something is deeply wrong with the Result object"), n)

/-- `andThen(op)`: `if (this.isOk()) return op(this.unwrap());
else return Err(this.unwrapErr())`. The callback's `Result` is returned
directly; on the `Err` side the callback does not appear in the code at all. -/
def Result.andThen (r : Result) (op : JSVal → JSM Result) : JSM Result := fun n =>
  match r.isOk with
  | .error ex => (.error ex, n)
  | .ok true =>
    match r.unwrap with
    | .error ex => (.error ex, n)
    | .ok v => op v n
  | .ok false =>
    match r.unwrapErr with
    | .error ex => (.error ex, n)
    | .ok e => (.ok (Err e), n)

/-- The `this.then((resultData) => { ... })` callback of `ResultAsync.map`,
from the `try` block onward (the part reached both when the short-circuit
`resolve` has already fired — the `if (!resultData.isOk())` branch has no
`return` — and when it has not). Returns the outcome the `try` block's own
`resolve` calls would establish, were the promise still unresolved, together
with the number of `func` invocations. `func(resultData.unwrap())` evaluates
`unwrap()` first, so on an `Err` instance the throw happens before `func` is
called and is caught by the `catch (err) { resolve(Err(err)) }`. A returned
`Promise` suspends until it settles; fulfilment resolves `Ok`, rejection
resolves `Err`. -/
def ResultAsync.mapTry (r : Result) (func : JSVal → Except JSVal JSVal) :
    JSProm JSVal Result × Nat :=
  match r.unwrap with
  | .error ex => (.fulfilled (Err ex), 0)
  | .ok v =>
    match func v with
    | .error ex => (.fulfilled (Err ex), 1)
    | .ok response =>
      match response with
      | .promVal .pending => (.pending, 1)
      | .promVal (.fulfilled d) => (.fulfilled (Ok d), 1)
      | .promVal (.rejected ex) => (.fulfilled (Err ex), 1)
      | u => (.fulfilled (Ok u), 1)

/-- `ResultAsync.map(func)`: the executor registers `this.then(cb)` with no
rejection handler, so a rejected or forever-pending underlying promise leaves
the returned `ResultAsync` pending forever. On fulfilment with an `Err`
instance, `resolve(Err(resultData.unwrapErr()))` fires first; the missing
`return` lets the `try` block run anyway, but a promise resolves only once,
so only the callback count of that dead code is observable. An exception
escaping the callback outside the `try` (from `isOk`/`unwrapErr`) rejects the
`then`-chain, which nothing handles: the result stays pending. -/
def ResultAsync.map (self : JSProm JSVal Result) (func : JSVal → Except JSVal JSVal) :
    JSProm JSVal Result × Nat :=
  match self with
  | .pending => (.pending, 0)
  | .rejected _ => (.pending, 0)
  | .fulfilled r =>
    match r.isOk with
    | .error _ => (.pending, 0)
    | .ok true => ResultAsync.mapTry r func
    | .ok false =>
      match r.unwrapErr with
      | .error _ => (.pending, 0)
      | .ok e => (.fulfilled (Err e), (ResultAsync.mapTry r func).2)

/-- The `try` block of `ResultAsync.mapErr`: `const error = op(result.unwrapErr());`
with `unwrapErr` evaluated first (throwing on an `Ok` instance, caught by the
`catch`), then the `instanceof Promise` dispatch, resolving `Err` on both the
plain-value and the settled-promise paths. -/
def ResultAsync.mapErrTry (r : Result) (op : JSVal → Except JSVal JSVal) :
    JSProm JSVal Result × Nat :=
  match r.unwrapErr with
  | .error ex => (.fulfilled (Err ex), 0)
  | .ok e =>
    match op e with
    | .error ex => (.fulfilled (Err ex), 1)
    | .ok error =>
      match error with
      | .promVal .pending => (.pending, 1)
      | .promVal (.fulfilled d) => (.fulfilled (Err d), 1)
      | .promVal (.rejected ex) => (.fulfilled (Err ex), 1)
      | u => (.fulfilled (Err u), 1)

/-- `ResultAsync.mapErr(op)`: the only combinator whose `this.then(cb)` chain
carries a `.catch((err) => resolve(Err(err)))`, so a rejected underlying
promise — or an exception escaping the callback outside the `try` — resolves
the returned `ResultAsync` to `Err`. On fulfilment with an `Ok` instance,
`resolve(Ok(result.unwrap()))` fires first; the missing `return` lets the
`try` block run anyway, where `unwrapErr()` throws and is caught, its
`resolve` ignored. -/
def ResultAsync.mapErr (self : JSProm JSVal Result) (op : JSVal → Except JSVal JSVal) :
    JSProm JSVal Result × Nat :=
  match self with
  | .pending => (.pending, 0)
  | .rejected reason => (.fulfilled (Err reason), 0)
  | .fulfilled r =>
    match r.isErr with
    | .error ex => (.fulfilled (Err ex), 0)
    | .ok true => ResultAsync.mapErrTry r op
    | .ok false =>
      match r.unwrap with
      | .error ex => (.fulfilled (Err ex), 0)
      | .ok v => (.fulfilled (Ok v), (ResultAsync.mapErrTry r op).2)

/-- `ResultAsync.andThen(op)`: no rejection handler on `this.then(cb)` and no
`try`/`catch` in the callback. On an `Ok` whose payload `data` is not a
`Promise`, `resolve(op(data))` is executed bare: an exception thrown by `op`
aborts the callback and the returned `ResultAsync` never resolves. Only when
`data` is itself a `Promise` does
`data.then((d) => resolve(op(d))).catch((err) => resolve(Err(err)))` put a
rejection handler downstream of `op`, capturing both the inner promise's
rejection and an exception thrown by `op` into an `Err` resolution. -/
def ResultAsync.andThen (self : JSProm JSVal Result) (op : JSVal → Except JSVal Result) :
    JSProm JSVal Result × Nat :=
  match self with
  | .pending => (.pending, 0)
  | .rejected _ => (.pending, 0)
  | .fulfilled r =>
    match r.isOk with
    | .error _ => (.pending, 0)
    | .ok true =>
      match r.unwrap with
      | .error _ => (.pending, 0)
      | .ok data =>
        match data with
        | .promVal .pending => (.pending, 0)
        | .promVal (.rejected ex) => (.fulfilled (Err ex), 0)
        | .promVal (.fulfilled d) =>
          match op d with
          | .ok res => (.fulfilled res, 1)
          | .error ex => (.fulfilled (Err ex), 1)
        | _ =>
          match op data with
          | .ok res => (.fulfilled res, 1)
          | .error _ => (.pending, 1)
    | .ok false =>
      match r.unwrapErr with
      | .error _ => (.pending, 0)
      | .ok e => (.fulfilled (Err e), 0)

/-- Sequencing in the callback effect channel: run the first computation and
feed its value to the continuation, propagating a thrown error. Used to state
chained combinator calls such as `Ok(x).map(f).mapErr(g)`. -/
def JSM.bind {α β : Type} (m : JSM α) (k : α → JSM β) : JSM β := fun n =>
  match m n with
  | (.error ex, n2) => (.error ex, n2)
  | (.ok a, n2) => k a n2

/-- C1: Variant exclusivity — `Ok(v)` satisfies `isOk() = true` and
`isErr() = false`, `Err(e)` satisfies `isOk() = false` and `isErr() = true`,
and every Result produced by the constructor answers `isErr()` as the exact
complement of `isOk()` (neither query reaching the fatal branch). -/
theorem c1_variant_exclusivity :
    (∀ v : JSVal, (Ok v).isOk = .ok true ∧ (Ok v).isErr = .ok false) ∧
    (∀ e : JSVal, (Err e).isOk = .ok false ∧ (Err e).isErr = .ok true) ∧
    (∀ (d : CtorData) (r : Result), Result.construct d = .ok r →
      ∃ b : Bool, r.isOk = .ok b ∧ r.isErr = .ok (!b)) := by
  refine ⟨fun v => ⟨rfl, rfl⟩, fun e => ⟨rfl, rfl⟩, fun d r h => ?_⟩
  obtain ⟨dok, derr⟩ := d
  cases dok with
  | some v =>
    simp only [Result.construct, Except.ok.injEq] at h
    exact ⟨true, by rw [← h]; exact ⟨rfl, rfl⟩⟩
  | none =>
    cases derr with
    | some e =>
      simp only [Result.construct, Except.ok.injEq] at h
      exact ⟨false, by rw [← h]; exact ⟨rfl, rfl⟩⟩
    | none => simp [Result.construct] at h

/-- C1 witness: the constructed-Result clause of `c1_variant_exclusivity`
applied to the concrete construction `new Result({ ok: 3 })`. -/
theorem c1_variant_exclusivity_witness :
    ∃ b : Bool, (Ok (.num 3)).isOk = .ok b ∧ (Ok (.num 3)).isErr = .ok (!b) :=
  c1_variant_exclusivity.2.2 { ok := some (.num 3), err := none } (Ok (.num 3)) rfl

/-- C2: Synchronous `andThen` short-circuit — `Err(e).andThen(f)` returns a
Result structurally equal to `Err(e)` with the callback's invocation counter
unchanged for every callback `f` (so `f` is invoked zero times), and
`Ok(x).andThen(f)` is exactly the computation `f(x)` (same outcome, same
counter evolution). -/
theorem c2_andThen_short_circuit :
    (∀ (e : JSVal) (op : JSVal → JSM Result) (n : Nat),
      Result.andThen (Err e) op n = (.ok (Err e), n)) ∧
    (∀ (x : JSVal) (op : JSVal → JSM Result) (n : Nat),
      Result.andThen (Ok x) op n = op x n) :=
  ⟨fun _ _ _ => rfl, fun _ _ _ => rfl⟩

/-- C3: `ResultAsync.map` short-circuit on `Err` — when the underlying
promise settles to a Result holding `Err(e)`, the returned `ResultAsync`
settles to `Err` with the same error value `e`, and the callback is invoked
zero times, for every callback. (The first `resolve(Err(resultData.unwrapErr()))`
wins; the fall-through `try` block throws in `resultData.unwrap()` before
`func` is applied, so `func` is never called.) -/
theorem c3_async_map_short_circuit :
    ∀ (e : JSVal) (func : JSVal → Except JSVal JSVal),
      ResultAsync.map (.fulfilled (Err e)) func = (.fulfilled (Err e), 0) :=
  fun _ _ => rfl

/-- C9: Undefined payloads still tag correctly — `Ok(undefined)` passes
`{ ok: undefined }` to the constructor, whose `"ok" in data` test sees the
property present, so the assignment establishes the `ok` tag on the instance;
`isOk()` is `true`, `isErr()` is `false`, and neither query reaches the
`"Something is deeply wrong"` fatal branch. Dually for `Err(undefined)`. -/
theorem c9_undefined_payload_tags :
    Result.construct { ok := some .undef, err := none } = .ok (Ok .undef) ∧
    (Ok .undef).isOk = .ok true ∧
    (Ok .undef).isErr = .ok false ∧
    Result.construct { ok := none, err := some .undef } = .ok (Err .undef) ∧
    (Err .undef).isOk = .ok false ∧
    (Err .undef).isErr = .ok true :=
  ⟨rfl, rfl, rfl, rfl, rfl, rfl⟩

/-- C10: Only `mapErr` recovers a rejected underlying promise — on an
underlying promise that rejects outright with `reason`, `mapErr` settles to
`Err(reason)` (via its `.catch` handler), while `map` and `andThen` register
no rejection handler: their returned `ResultAsync` never settles (stays
pending), and no callback is invoked in any of the three. -/
theorem c10_only_mapErr_recovers_rejection :
    ∀ (reason : JSVal) (op : JSVal → Except JSVal JSVal)
      (opA : JSVal → Except JSVal Result),
      ResultAsync.mapErr (.rejected reason) op = (.fulfilled (Err reason), 0) ∧
      ResultAsync.map (.rejected reason) op = (.pending, 0) ∧
      ResultAsync.andThen (.rejected reason) opA = (.pending, 0) :=
  fun _ _ _ => ⟨rfl, rfl, rfl⟩

/-- C5: `map` identity on `Err` and exception transparency — `Err(e).map(f)`
returns a Result structurally equal to `Err(e)` with the callback counter
unchanged for every `f` (the payload is carried into a newly constructed
`Err`, `f` is not applied to it); and when `f(x)` throws, `Ok(x).map(f)`
does not catch the thrown error: `map` propagates exactly that throw. -/
theorem c5_map_err_identity_and_throw_transparency :
    (∀ (e : JSVal) (op : JSVal → JSM JSVal) (n : Nat),
      Result.map (Err e) op n = (.ok (Err e), n)) ∧
    (∀ (x : JSVal) (op : JSVal → JSM JSVal) (n n2 : Nat) (ex : JSVal),
      op x n = (.error ex, n2) →
      Result.map (Ok x) op n = (.error ex, n2)) := by
  refine ⟨fun e op n => rfl, fun x op n n2 ex h => ?_⟩
  have hm : Result.map (Ok x) op n =
      (match op x n with
       | (.error ex2, m) => ((.error ex2 : Except JSVal Result), m)
       | (.ok u, m) => (.ok (Ok u), m)) := rfl
  rw [hm, h]

/-- C5 witness: `c5_map_err_identity_and_throw_transparency` applied to
`Ok(7)` with a callback that throws the string `"kaboom"` starting from
counter 0. -/
theorem c5_map_err_identity_and_throw_transparency_witness :
    Result.map (Ok (.num 7)) (fun _ n => (.error (.str "kaboom"), n + 1)) 0 =
      (.error (.str "kaboom"), 1) :=
  c5_map_err_identity_and_throw_transparency.2 (.num 7)
    (fun _ n => (.error (.str "kaboom"), n + 1)) 0 1 (.str "kaboom") rfl

/-- C6: Round-trip via `mapErr` after `map` — if `f(x)` returns `u` without
throwing, then `Ok(x).map(f).mapErr(g)` is structurally equal to `Ok(f(x))`
with the callback counter left exactly where `f` put it, for every `g`
(so `g` is invoked zero times: `mapErr` never touches an `Ok`). -/
theorem c6_mapErr_after_map_roundtrip :
    ∀ (x u : JSVal) (f g : JSVal → JSM JSVal) (n n2 : Nat),
      f x n = (.ok u, n2) →
      JSM.bind (Result.map (Ok x) f) (fun r => Result.mapErr r g) n =
        (.ok (Ok u), n2) := by
  intro x u f g n n2 h
  have h1 : Result.map (Ok x) f n = (.ok (Ok u), n2) := by
    have hm : Result.map (Ok x) f n =
        (match f x n with
         | (.error ex2, m) => ((.error ex2 : Except JSVal Result), m)
         | (.ok u2, m) => (.ok (Ok u2), m)) := rfl
    rw [hm, h]
  simp only [JSM.bind]
  rw [h1]
  exact rfl

/-- C6 witness: `c6_mapErr_after_map_roundtrip` applied to `Ok(2)` with a
counting doubling callback `f` and a counting callback `g`, starting from
counter 0: the chain yields `Ok(4)` with count 1 (only `f` ran). -/
theorem c6_mapErr_after_map_roundtrip_witness :
    JSM.bind (Result.map (Ok (.num 2)) (fun v n =>
        (.ok (match v with | .num m => JSVal.num (2 * m) | w => w), n + 1)))
      (fun r => Result.mapErr r (fun e n => (.ok e, n + 1))) 0 =
      (.ok (Ok (.num 4)), 1) :=
  c6_mapErr_after_map_roundtrip (.num 2) (.num 4)
    (fun v n => (.ok (match v with | .num m => JSVal.num (2 * m) | w => w), n + 1))
    (fun e n => (.ok e, n + 1)) 0 1 rfl

/-- C7: `contains` uses deep structural equality — on `Ok(v)` it returns
exactly `isDeepStrictEqual(v, x)` (the recursive structural equality), on
`Err(e)` it returns `false` for every probe; in particular
`Ok({data:123}).contains({data:123})` is `true` while
`Ok({data:123}).contains({data:"123"})` is `false` (the number `123` is not
structurally equal to the string `"123"`). -/
theorem c7_contains_deep_equality :
    (∀ v x : JSVal, (Ok v).contains x = .ok (isDeepStrictEqual v x)) ∧
    (∀ e x : JSVal, (Err e).contains x = .ok false) ∧
    (Ok (.obj [("data", .num 123)])).contains (.obj [("data", .num 123)]) =
      .ok true ∧
    (Ok (.obj [("data", .num 123)])).contains (.obj [("data", .str "123")]) =
      .ok false := by
  refine ⟨fun v x => rfl, fun e x => rfl, ?_, ?_⟩ <;>
    simp [Result.contains, Result.unwrap, Result.unwrapF, Result.isOk, Ok,
      isDeepStrictEqual, deepEqualFields]

/-- C8: Extraction failure determinism — `Err(e).unwrap()` always throws an
`Error` whose message is the fixed prefix followed by `JSON.stringify(e)`,
and `Ok(v).unwrapErr()` always throws the dual message with
`JSON.stringify(v)`; concretely, `Err("boom").unwrap()` throws a message
containing the text `boom`, and `Ok(5).unwrapErr()` throws a message
containing `5`. -/
theorem c8_extraction_failure_determinism :
    (∀ e : JSVal, (Err e).unwrap =
      .error (.errObj ("Called Result.unwrap() on an Err value: " ++ jsonStringify e))) ∧
    (∀ v : JSVal, (Ok v).unwrapErr =
      .error (.errObj ("Called Result.unwrapErr() on an Ok value: " ++ jsonStringify v))) ∧
    ((Err (.str "boom")).unwrap =
      .error (.errObj "Called Result.unwrap() on an Err value: \"boom\"") ∧
      "boom".data <:+: "Called Result.unwrap() on an Err value: \"boom\"".data) ∧
    ((Ok (.num 5)).unwrapErr =
      .error (.errObj "Called Result.unwrapErr() on an Ok value: 5") ∧
      "5".data <:+: "Called Result.unwrapErr() on an Ok value: 5".data) := by
  have h1 : ∀ e : JSVal, (Err e).unwrap =
      .error (.errObj ("Called Result.unwrap() on an Err value: " ++ jsonStringify e)) :=
    fun _ => rfl
  have h2 : ∀ v : JSVal, (Ok v).unwrapErr =
      .error (.errObj ("Called Result.unwrapErr() on an Ok value: " ++ jsonStringify v)) :=
    fun _ => rfl
  refine ⟨h1, h2, ⟨?_, by decide⟩, ⟨?_, by decide⟩⟩
  · rw [h1 (.str "boom")]
    exact congrArg (fun s => (Except.error (JSVal.errObj s) : Except JSVal JSVal))
      (by simp only [jsonStringify]; decide)
  · rw [h2 (.num 5)]
    exact congrArg (fun s => (Except.error (JSVal.errObj s) : Except JSVal JSVal))
      (by simp only [jsonStringify]; decide)

/-- On a fulfilled `Ok` Result, `ResultAsync.map` skips the short-circuit
`if` and its outcome is that of the `try` block. -/
theorem ResultAsync.map_fulfilled_Ok (x : JSVal) (func : JSVal → Except JSVal JSVal) :
    ResultAsync.map (.fulfilled (Ok x)) func = ResultAsync.mapTry (Ok x) func := rfl

/-- The `try` block of `map` on an `Ok` instance: `unwrap()` succeeds and
`func` is applied to the payload, with the `instanceof Promise` dispatch on
its return value. -/
theorem ResultAsync.mapTry_Ok (x : JSVal) (func : JSVal → Except JSVal JSVal) :
    ResultAsync.mapTry (Ok x) func =
      (match func x with
       | .error ex => ((.fulfilled (Err ex) : JSProm JSVal Result), 1)
       | .ok response =>
         match response with
         | .promVal .pending => (.pending, 1)
         | .promVal (.fulfilled d) => (.fulfilled (Ok d), 1)
         | .promVal (.rejected ex) => (.fulfilled (Err ex), 1)
         | u => (.fulfilled (Ok u), 1)) := rfl

/-- On a fulfilled `Err` Result, `ResultAsync.mapErr` skips the short-circuit
`if` and its outcome is that of the `try` block. -/
theorem ResultAsync.mapErr_fulfilled_Err (e : JSVal) (op : JSVal → Except JSVal JSVal) :
    ResultAsync.mapErr (.fulfilled (Err e)) op = ResultAsync.mapErrTry (Err e) op := rfl

/-- The `try` block of `mapErr` on an `Err` instance: `unwrapErr()` succeeds
and `op` is applied to the error, with the `instanceof Promise` dispatch on
its return value. -/
theorem ResultAsync.mapErrTry_Err (e : JSVal) (op : JSVal → Except JSVal JSVal) :
    ResultAsync.mapErrTry (Err e) op =
      (match op e with
       | .error ex => ((.fulfilled (Err ex) : JSProm JSVal Result), 1)
       | .ok error =>
         match error with
         | .promVal .pending => (.pending, 1)
         | .promVal (.fulfilled d) => (.fulfilled (Err d), 1)
         | .promVal (.rejected ex) => (.fulfilled (Err ex), 1)
         | u => (.fulfilled (Err u), 1)) := rfl

/-- `ResultAsync.andThen` on a fulfilled `Ok` whose payload is not a
`Promise`: `resolve(op(data))` runs bare, so the promise resolves to `op`'s
Result when `op` returns, and never resolves when `op` throws. -/
theorem ResultAsync.andThen_plainPayload (x : JSVal) (op : JSVal → Except JSVal Result)
    (hp : x.isPromise = false) :
    ResultAsync.andThen (.fulfilled (Ok x)) op =
      (match op x with
       | .ok res => ((.fulfilled res : JSProm JSVal Result), 1)
       | .error _ => (.pending, 1)) := by
  cases x <;> first
    | rfl
    | simp [JSVal.isPromise] at hp

/-- `ResultAsync.andThen` on a fulfilled `Ok` whose payload is a fulfilled
`Promise`: `op` runs inside `data.then(...)`, downstream of which a `.catch`
converts an exception from `op` into an `Err` resolution. -/
theorem ResultAsync.andThen_promPayload (d : JSVal) (op : JSVal → Except JSVal Result) :
    ResultAsync.andThen (.fulfilled (Ok (.promVal (.fulfilled d)))) op =
      (match op d with
       | .ok res => ((.fulfilled res : JSProm JSVal Result), 1)
       | .error ex => (.fulfilled (Err ex), 1)) := rfl

/-- C4 counterexample: the claim predicts that `andThen` with a callback that
synchronously throws `"boom"` on the underlying `Ok(0)` settles to
`Err("boom")`; in the code `resolve(op(data))` has no `try`/`catch`, so the
callback is invoked (count 1) but the returned `ResultAsync` stays pending
forever and never settles to the predicted `Err`. -/
theorem c4_callback_error_capture_counterexample :
    ResultAsync.andThen (.fulfilled (Ok (.num 0))) (fun _ => .error (.str "boom")) =
      (.pending, 1) ∧
    (ResultAsync.andThen (.fulfilled (Ok (.num 0))) (fun _ => .error (.str "boom"))).1 ≠
      JSProm.fulfilled (Err (.str "boom")) := by
  refine ⟨rfl, fun h => ?_⟩
  have h2 : (JSProm.pending : JSProm JSVal Result) = .fulfilled (Err (.str "boom")) := h
  exact JSProm.noConfusion h2

/-- C4 amended: `map` and `mapErr` convert a synchronously-thrown callback
value, or a rejected deferred computation returned by the callback, into the
`Err` payload of the settled `AsyncResult`. `andThen` does not: when the `Ok`
payload is a plain value, a synchronous throw from its callback leaves the
returned `AsyncResult` pending forever (the error is not captured); only when
the `Ok` payload is itself a fulfilled deferred computation is the throw
captured into an `Err` settlement. -/
theorem c4_callback_error_capture_amended :
    (∀ (x : JSVal) (func : JSVal → Except JSVal JSVal) (ex : JSVal),
      func x = .error ex →
      ResultAsync.map (.fulfilled (Ok x)) func = (.fulfilled (Err ex), 1)) ∧
    (∀ (x : JSVal) (func : JSVal → Except JSVal JSVal) (ex : JSVal),
      func x = .ok (.promVal (.rejected ex)) →
      ResultAsync.map (.fulfilled (Ok x)) func = (.fulfilled (Err ex), 1)) ∧
    (∀ (e : JSVal) (op : JSVal → Except JSVal JSVal) (ex : JSVal),
      op e = .error ex →
      ResultAsync.mapErr (.fulfilled (Err e)) op = (.fulfilled (Err ex), 1)) ∧
    (∀ (e : JSVal) (op : JSVal → Except JSVal JSVal) (ex : JSVal),
      op e = .ok (.promVal (.rejected ex)) →
      ResultAsync.mapErr (.fulfilled (Err e)) op = (.fulfilled (Err ex), 1)) ∧
    (∀ (x : JSVal) (op : JSVal → Except JSVal Result) (ex : JSVal),
      x.isPromise = false → op x = .error ex →
      ResultAsync.andThen (.fulfilled (Ok x)) op = (.pending, 1)) ∧
    (∀ (d : JSVal) (op : JSVal → Except JSVal Result) (ex : JSVal),
      op d = .error ex →
      ResultAsync.andThen (.fulfilled (Ok (.promVal (.fulfilled d)))) op =
        (.fulfilled (Err ex), 1)) := by
  refine ⟨fun x func ex h => ?_, fun x func ex h => ?_, fun e op ex h => ?_,
    fun e op ex h => ?_, fun x op ex hp h => ?_, fun d op ex h => ?_⟩
  · rw [ResultAsync.map_fulfilled_Ok, ResultAsync.mapTry_Ok, h]
  · rw [ResultAsync.map_fulfilled_Ok, ResultAsync.mapTry_Ok, h]
  · rw [ResultAsync.mapErr_fulfilled_Err, ResultAsync.mapErrTry_Err, h]
  · rw [ResultAsync.mapErr_fulfilled_Err, ResultAsync.mapErrTry_Err, h]
  · rw [ResultAsync.andThen_plainPayload x op hp, h]
  · rw [ResultAsync.andThen_promPayload, h]

/-- C4 amended witness: the six clauses of
`c4_callback_error_capture_amended` applied at concrete inputs. -/
theorem c4_callback_error_capture_amended_witness :
    ResultAsync.map (.fulfilled (Ok (.num 1))) (fun _ => .error (.str "t1")) =
      (.fulfilled (Err (.str "t1")), 1) ∧
    ResultAsync.map (.fulfilled (Ok (.num 1)))
        (fun _ => .ok (.promVal (.rejected (.str "t2")))) =
      (.fulfilled (Err (.str "t2")), 1) ∧
    ResultAsync.mapErr (.fulfilled (Err (.num 2))) (fun _ => .error (.str "t3")) =
      (.fulfilled (Err (.str "t3")), 1) ∧
    ResultAsync.mapErr (.fulfilled (Err (.num 2)))
        (fun _ => .ok (.promVal (.rejected (.str "t4")))) =
      (.fulfilled (Err (.str "t4")), 1) ∧
    ResultAsync.andThen (.fulfilled (Ok (.num 3))) (fun _ => .error (.str "t5")) =
      (.pending, 1) ∧
    ResultAsync.andThen (.fulfilled (Ok (.promVal (.fulfilled (.num 4)))))
        (fun _ => .error (.str "t6")) =
      (.fulfilled (Err (.str "t6")), 1) :=
  ⟨c4_callback_error_capture_amended.1 (.num 1) _ (.str "t1") rfl,
   c4_callback_error_capture_amended.2.1 (.num 1) _ (.str "t2") rfl,
   c4_callback_error_capture_amended.2.2.1 (.num 2) _ (.str "t3") rfl,
   c4_callback_error_capture_amended.2.2.2.1 (.num 2) _ (.str "t4") rfl,
   c4_callback_error_capture_amended.2.2.2.2.1 (.num 3) _ (.str "t5") rfl rfl,
   c4_callback_error_capture_amended.2.2.2.2.2 (.num 4) _ (.str "t6") rfl⟩
